import Mathlib

/-!
Verification of the AIadcreative Generation Orchestration Engine.

The repository's backend sources are not present; only the frontend, the
deployment configuration and the README are. The backend components
(Rate Limiter, Provider Adapter, Failover Controller, Prompt Builder,
Generation Pipeline) are therefore modelled from the specification, while
the frontend authentication hook and routing component are embedded from
the TypeScript sources.
-/

/-! ## Provider errors and results (modelled from the spec, section 4.4) -/

/-- Modelled from the spec: the provider-level error taxonomy of section 4.4
(the backend adapter sources are missing from the repository). -/
inductive ProviderError
  | transientError
  | rateLimitedError
  | authError
  | malformedResponseError
deriving DecidableEq, Repr

/-- Modelled from the spec: `TransientError` and `RateLimitedError` are
retryable within an adapter; `AuthError` and `MalformedResponseError` are
not. -/
def ProviderError.retryable : ProviderError → Bool
  | ProviderError.transientError => true
  | ProviderError.rateLimitedError => true
  | ProviderError.authError => false
  | ProviderError.malformedResponseError => false

/-- Modelled from the spec: a `ProviderResult` carries the provider
identifier, the payload and token/latency metadata. -/
structure ProviderResult where
  providerId : String
  payload : String
  tokensUsed : Nat
  latencyMs : Nat
deriving DecidableEq, Repr

/-- Modelled from the spec: a Provider Adapter. The backend is a
non-deterministic black box, so its responses during one `execute` call are
modelled as a function from the attempt index (0-based, within the call)
to the outcome of that attempt. -/
structure Adapter where
  name : String
  behavior : Nat → Except ProviderError ProviderResult

/-! ## Provider health and failover configuration (spec sections 3, 4.5) -/

/-- Modelled from the spec: per-provider mutable health state — a
consecutive-failure count and a cool-down-until timestamp. The circuit is
open when the failure count has reached the threshold and the current time
is before `coolDownUntil`; half-open when the count has reached the
threshold but the cool-down has expired. -/
structure ProviderHealth where
  consecutiveFailures : Nat
  coolDownUntil : Nat
deriving DecidableEq, Repr

/-- Modelled from the spec: failover configuration — circuit-breaker
threshold (default 3), bounded retries (default 2), and the cool-down
window parameters (growth capped). -/
structure FailoverConfig where
  threshold : Nat := 3
  maxRetries : Nat := 2
  baseCoolDown : Nat := 60
  coolDownCap : Nat := 3600
deriving DecidableEq, Repr

/-- Modelled from the spec: an adapter's circuit is open (it is skipped)
when its consecutive-failure count has reached the threshold and the
current time is before its cool-down-until timestamp. -/
def circuitOpenAt (cfg : FailoverConfig) (h : ProviderHealth) (now : Nat) : Bool :=
  cfg.threshold ≤ h.consecutiveFailures && now < h.coolDownUntil

/-- Modelled from the spec: an adapter is half-open (eligible for exactly
one probe attempt) when its failure count has reached the threshold but
its cool-down has expired. -/
def halfOpenAt (cfg : FailoverConfig) (h : ProviderHealth) (now : Nat) : Bool :=
  cfg.threshold ≤ h.consecutiveFailures && h.coolDownUntil ≤ now

/-- Modelled from the spec: the cool-down window grows with repeated
failures beyond the threshold and is capped (the exact growth law is an
implementation choice; exponential growth with a cap is used here). -/
def coolDownWindow (cfg : FailoverConfig) (failures : Nat) : Nat :=
  min (cfg.baseCoolDown * 2 ^ (failures - cfg.threshold)) cfg.coolDownCap

/-- Modelled from the spec: the new health record after an adapter run
fails — the consecutive-failure count is incremented, and when the
threshold is reached the circuit opens with cool-down-until set to
now plus the (capped) cool-down window. -/
def failureHealth (cfg : FailoverConfig) (now : Nat) (h : ProviderHealth) : ProviderHealth :=
  if cfg.threshold ≤ h.consecutiveFailures + 1 then
    { consecutiveFailures := h.consecutiveFailures + 1,
      coolDownUntil := now + coolDownWindow cfg (h.consecutiveFailures + 1) }
  else
    { consecutiveFailures := h.consecutiveFailures + 1, coolDownUntil := h.coolDownUntil }

/-- Health records per adapter name. -/
abbrev HealthMap := List (String × ProviderHealth)

/-- Look up an adapter's health; an unknown adapter is healthy (closed
circuit, zero failures). -/
def lookupHealth (hm : HealthMap) (name : String) : ProviderHealth :=
  match hm.find? (fun p => p.1 == name) with
  | some p => p.2
  | none => { consecutiveFailures := 0, coolDownUntil := 0 }

/-- Replace an adapter's health record. -/
def updateHealth (hm : HealthMap) (name : String) (h : ProviderHealth) : HealthMap :=
  (name, h) :: hm.filter (fun p => p.1 != name)

/-! ## Retry loop and failover iteration (spec section 4.5) -/

/-- Modelled from the spec: run one adapter with a bounded number of
attempts, retrying only on retryable errors. Returns the final outcome and
the number of attempts consumed (the second argument is the index of the
next attempt). -/
def runAdapter (a : Adapter) : Nat → Nat → Except ProviderError ProviderResult × Nat
  | 0, idx => (Except.error ProviderError.transientError, idx)
  | n + 1, idx =>
    match a.behavior idx with
    | Except.ok r => (Except.ok r, idx + 1)
    | Except.error e =>
      if e.retryable && n != 0 then runAdapter a n (idx + 1)
      else (Except.error e, idx + 1)

/-- Outcome recorded in the attempt trail for one adapter. -/
inductive ExecOutcome
  | success
  | failed (e : ProviderError)
  | circuitOpen
deriving DecidableEq, Repr

/-- One entry of the fallback-attempt trail: the provider, its final
outcome for this call, and how many attempts were made on it. -/
structure TrailEntry where
  provider : String
  outcome : ExecOutcome
  attempts : Nat
deriving DecidableEq, Repr

/-- Result of the Failover Controller's `execute`: either the first
successful adapter's result together with the attempt trail, or
`AllProvidersUnavailableError` surfacing the full attempt trail. -/
inductive ExecuteResult
  | ok (r : ProviderResult) (trail : List TrailEntry)
  | allProvidersUnavailable (trail : List TrailEntry)
deriving DecidableEq, Repr

/-- The trail carried by an `ExecuteResult`. -/
def ExecuteResult.trailOf : ExecuteResult → List TrailEntry
  | ExecuteResult.ok _ trail => trail
  | ExecuteResult.allProvidersUnavailable trail => trail

/-- Modelled from the spec: the failover iteration of section 4.5.
Adapters are tried in order: a circuit-open adapter is skipped and the
skip recorded as `circuitOpen`; otherwise the adapter is run with bounded
retries (exactly one probe attempt when half-open); on success the
adapter's failure count is reset, its circuit closed, and the result
returned immediately; on failure the failure count is incremented (opening
the circuit with a cool-down when the threshold is reached) and iteration
proceeds to the next adapter. -/
def executeGo (cfg : FailoverConfig) (now : Nat) :
    List Adapter → HealthMap → List TrailEntry → ExecuteResult × HealthMap
  | [], hm, trail => (ExecuteResult.allProvidersUnavailable trail, hm)
  | a :: rest, hm, trail =>
    if circuitOpenAt cfg (lookupHealth hm a.name) now then
      executeGo cfg now rest hm
        (trail ++ [{ provider := a.name, outcome := ExecOutcome.circuitOpen, attempts := 0 }])
    else
      match runAdapter a
          (if halfOpenAt cfg (lookupHealth hm a.name) now then 1 else cfg.maxRetries + 1) 0 with
      | (Except.ok r, n) =>
        (ExecuteResult.ok r
          (trail ++ [{ provider := a.name, outcome := ExecOutcome.success, attempts := n }]),
         updateHealth hm a.name { consecutiveFailures := 0, coolDownUntil := 0 })
      | (Except.error e, n) =>
        executeGo cfg now rest
          (updateHealth hm a.name (failureHealth cfg now (lookupHealth hm a.name)))
          (trail ++ [{ provider := a.name, outcome := ExecOutcome.failed e, attempts := n }])

/-- Modelled from the spec: a caller-supplied provider hint reorders the
adapter list to try the hinted adapter first for this call only. -/
def reorderWithHint (hint : Option String) (adapters : List Adapter) : List Adapter :=
  match hint with
  | none => adapters
  | some h =>
    adapters.filter (fun a => a.name == h) ++ adapters.filter (fun a => a.name != h)

/-- Modelled from the spec: the Provider Registry — an ordered list of
adapters (primary first) plus a health record per adapter. -/
structure Registry where
  order : List Adapter
  health : HealthMap

/-- Modelled from the spec: the Failover Controller's public `execute`.
It iterates the (possibly hint-reordered) adapter list and returns the
outcome together with the updated registry; the registry's default order
is not mutated. -/
def Registry.execute (cfg : FailoverConfig) (now : Nat) (reg : Registry)
    (hint : Option String) : ExecuteResult × Registry :=
  match executeGo cfg now (reorderWithHint hint reg.order) reg.health [] with
  | (res, hm) => (res, { order := reg.order, health := hm })

/-! ## Rate Limiter (spec section 4.1; defaults from the repository's
environment configuration: RATE_LIMIT_PER_MINUTE=60, RATE_LIMIT_PER_HOUR=1000) -/

/-- Modelled from the spec: rate-limit window caps, default 60 per minute
and 1000 per hour. -/
structure RateLimitConfig where
  perMinute : Nat := 60
  perHour : Nat := 1000
deriving DecidableEq, Repr

/-- Modelled from the spec: per-caller counters — window-start timestamp
and request count for the 1-minute and the 1-hour window. -/
structure CallerCounters where
  minuteStart : Nat
  minuteCount : Nat
  hourStart : Nat
  hourCount : Nat
deriving DecidableEq, Repr

/-- Modelled from the spec: prune expired windows — a window whose span has
elapsed restarts at the current time with a zero count. -/
def pruneCounters (now : Nat) (c : CallerCounters) : CallerCounters :=
  let c1 := if c.minuteStart + 60 ≤ now then { c with minuteStart := now, minuteCount := 0 } else c
  if c1.hourStart + 3600 ≤ now then { c1 with hourStart := now, hourCount := 0 } else c1

/-- Result of a rate-limit check. -/
inductive RateDecision
  | allowed
  | denied (retryAfter : Nat)
deriving DecidableEq, Repr

/-- Per-caller rate-limit counter table. -/
abbrev RateTable := List (String × CallerCounters)

/-- Look up a caller's counters; an unseen caller gets fresh windows
starting now with zero counts. -/
def lookupCounters (now : Nat) (tbl : RateTable) (caller : String) : CallerCounters :=
  match tbl.find? (fun p => p.1 == caller) with
  | some p => p.2
  | none => { minuteStart := now, minuteCount := 0, hourStart := now, hourCount := 0 }

/-- Replace a caller's counters. -/
def updateCounters (tbl : RateTable) (caller : String) (c : CallerCounters) : RateTable :=
  (caller, c) :: tbl.filter (fun p => p.1 != caller)

/-- Modelled from the spec: `check_and_increment(caller_id)`. Prune expired
windows, compare the current counts to the limits; if under both limits
increment and return `allowed`, else return `denied` with the seconds
remaining until the limiting window resets, without incrementing. -/
def check_and_increment (cfg : RateLimitConfig) (now : Nat) (tbl : RateTable)
    (caller : String) : RateDecision × RateTable :=
  match pruneCounters now (lookupCounters now tbl caller) with
  | c =>
    if c.minuteCount < cfg.perMinute then
      if c.hourCount < cfg.perHour then
        (RateDecision.allowed,
         updateCounters tbl caller
           { c with minuteCount := c.minuteCount + 1, hourCount := c.hourCount + 1 })
      else
        (RateDecision.denied (c.hourStart + 3600 - now), updateCounters tbl caller c)
    else
      (RateDecision.denied (c.minuteStart + 60 - now), updateCounters tbl caller c)

/-- Iterate `check_and_increment` for the same caller at a fixed time,
returning the decision of the last call and the final table. -/
def callRepeatedly (cfg : RateLimitConfig) (now : Nat) (caller : String) :
    Nat → RateTable → RateDecision × RateTable
  | 0, tbl => (RateDecision.allowed, tbl)
  | n + 1, tbl =>
    match callRepeatedly cfg now caller n tbl with
    | (_, tbl') => check_and_increment cfg now tbl' caller

/-! ## Prompt Builder (spec section 4.3) -/

/-- Modelled from the spec: the content-type enum of `GenerationRequest`. -/
inductive ContentType
  | social_post
  | banner_ad
  | video_script
  | email_campaign
  | blog_post
  | product_description
deriving DecidableEq, Repr

/-- Modelled from the spec: the target-platform enum of
`GenerationRequest`. -/
inductive Platform
  | instagram
  | facebook
  | twitter
  | linkedin
  | tiktok
  | custom
deriving DecidableEq, Repr

/-- Modelled from the spec: a condensed reference-material summary
(kind, short description, extracted attributes). -/
structure ReferenceSummary where
  kind : String
  description : String
  attributes : List (String × String)
deriving DecidableEq, Repr

/-- Modelled from the spec: the immutable BrandContext snapshot. -/
structure BrandContext where
  name : String
  voice : String
  colorPalette : List (String × String)
  typography : List (String × String)
  messagingPillars : List String
  targetAudience : String
  brandValues : List String
  referenceSummaries : List ReferenceSummary
deriving DecidableEq, Repr

/-- Modelled from the spec: a GenerationRequest. -/
structure GenerationRequest where
  callerId : String
  brandId : Nat
  contentType : ContentType
  platform : Platform
  brief : String
  additionalContext : List (String × String)
  preferredProvider : Option String
deriving DecidableEq, Repr

/-- Modelled from the spec: a provider-agnostic PromptSpec. -/
structure PromptSpec where
  systemInstructions : String
  userInstructions : String
  outputFormatHint : Option String
deriving DecidableEq, Repr

/-- Modelled from the spec: the per-content-type template (generic form,
used as the default fallback for any platform). -/
def contentTemplate : ContentType → String
  | ContentType.social_post => "Short-form, hook-first social post."
  | ContentType.banner_ad => "Concise banner advertisement copy."
  | ContentType.video_script => "Scene and beat structured video script."
  | ContentType.email_campaign => "Email with subject line and body."
  | ContentType.blog_post => "Long-form structured blog post."
  | ContentType.product_description => "Benefit-led product description."

/-- Modelled from the spec: the platform overlay adjusting tone and length
constraints. -/
def platformOverlay : Platform → String
  | Platform.instagram => " Keep it visual and concise; caption within Instagram length limits."
  | Platform.facebook => " Conversational tone suited to Facebook."
  | Platform.twitter => " Hard character ceiling of 280 characters."
  | Platform.linkedin => " Professional register suited to LinkedIn."
  | Platform.tiktok => " Casual, hook within the first second."
  | Platform.custom => " Generic platform guidance."

/-- Modelled from the spec: specifically registered content-type/platform
template pairings. -/
def registeredTemplates : List (ContentType × Platform × String) :=
  [(ContentType.social_post, Platform.instagram,
    "Hook-first Instagram post with hashtag block."),
   (ContentType.social_post, Platform.twitter,
    "Punchy single-message post within 280 characters."),
   (ContentType.video_script, Platform.tiktok,
    "Fast-cut short-video script with immediate hook."),
   (ContentType.email_campaign, Platform.custom,
    "Subject plus body email structure.")]

/-- Modelled from the spec: template lookup — a specifically registered
pairing when present, else the default/generic fallback template for the
content type (a fallback exists for any platform). -/
def templateFor (ct : ContentType) (p : Platform) : Option String :=
  match registeredTemplates.find? (fun t => t.1 == ct && t.2.1 == p) with
  | some t => some t.2.2
  | none => some (contentTemplate ct)

/-- Errors of the Prompt Builder. -/
inductive PromptError
  | unsupportedCombination
deriving DecidableEq, Repr

/-- Render a key/value mapping verbatim into the user instructions. -/
def renderPairs : List (String × String) → String
  | [] => ""
  | (k, v) :: rest => " " ++ k ++ ": " ++ v ++ renderPairs rest

/-- Modelled from the spec: the Prompt Builder's `build`. Selects the
template pairing (failing with `UnsupportedCombinationError` when none is
registered and no fallback applies), applies the platform overlay,
interpolates brand voice, values and messaging pillars into the system
instructions, and appends the brief and additional context verbatim,
delimited from the brand instructions. -/
def build (req : GenerationRequest) (ctx : BrandContext) : Except PromptError PromptSpec :=
  match templateFor req.contentType req.platform with
  | none => Except.error PromptError.unsupportedCombination
  | some tmpl =>
    Except.ok
      { systemInstructions :=
          tmpl ++ platformOverlay req.platform
            ++ " Brand voice: " ++ ctx.voice ++ "."
            ++ " Brand values: " ++ String.intercalate ", " ctx.brandValues ++ "."
            ++ " Messaging pillars: " ++ String.intercalate ", " ctx.messagingPillars ++ ".",
        userInstructions :=
          "=== CALLER BRIEF (verbatim, not brand instructions) === "
            ++ req.brief ++ renderPairs req.additionalContext,
        outputFormatHint := some "return JSON with fields headline, body, hashtags" }

/-! ## Generation Pipeline (spec section 4.6) -/

/-- Modelled from the spec: a GenerationResult — chosen provider, payload,
fallback-attempt trail, timestamp. -/
structure GenerationResult where
  provider : String
  payload : String
  trail : List TrailEntry
  timestamp : Nat
deriving DecidableEq, Repr

/-- Modelled from the spec: structured errors crossing the pipeline
boundary. -/
inductive GenError
  | rateLimited (retryAfter : Nat)
  | invalidBrand
  | unsupportedCombination
  | allProvidersUnavailable (trail : List TrailEntry)
deriving DecidableEq, Repr

/-- Modelled from the spec: the state shared across calls — rate-limit
counters, the provider registry with health, and the list of results
handed to the external persistence collaborator. -/
structure PipelineState where
  rateTable : RateTable
  registry : Registry
  persisted : List GenerationResult

/-- Modelled from the spec: `generate_content`. Rate-limit check (deny
fast with retry-after), build the PromptSpec, invoke the Failover
Controller's generate operation, wrap the winning result plus the attempt
trail into a GenerationResult and hand it to persistence; on
`AllProvidersUnavailableError` the full attempt trail is surfaced and
nothing is persisted. -/
def generate_content (rcfg : RateLimitConfig) (fcfg : FailoverConfig) (now : Nat)
    (ctx : BrandContext) (st : PipelineState) (req : GenerationRequest) :
    Except GenError GenerationResult × PipelineState :=
  match check_and_increment rcfg now st.rateTable req.callerId with
  | (RateDecision.denied retryAfter, tbl') =>
    (Except.error (GenError.rateLimited retryAfter), { st with rateTable := tbl' })
  | (RateDecision.allowed, tbl') =>
    match build req ctx with
    | Except.error _ =>
      (Except.error GenError.unsupportedCombination, { st with rateTable := tbl' })
    | Except.ok _spec =>
      match Registry.execute fcfg now st.registry req.preferredProvider with
      | (ExecuteResult.ok r trail, reg') =>
        (Except.ok { provider := r.providerId, payload := r.payload, trail := trail,
                     timestamp := now },
         { rateTable := tbl', registry := reg',
           persisted := st.persisted
             ++ [{ provider := r.providerId, payload := r.payload, trail := trail,
                   timestamp := now }] })
      | (ExecuteResult.allProvidersUnavailable trail, reg') =>
        (Except.error (GenError.allProvidersUnavailable trail),
         { rateTable := tbl', registry := reg', persisted := st.persisted })

/-! ## Frontend: useAuth hook (embedded from frontend/src/hooks/useAuth.ts) -/

/-- The frontend User shape (useAuth.ts). -/
structure User where
  id : Nat
  username : String
  email : String
  full_name : Option String
  role : String
  is_active : Bool
deriving DecidableEq, Repr

/-- The frontend AuthState (useAuth.ts). -/
structure AuthState where
  user : Option User
  token : Option String
  loading : Bool
deriving DecidableEq, Repr

/-- The browser-side state the login function reads and writes: the
localStorage token, the axios default Authorization header, and the hook's
auth state. -/
structure BrowserAuth where
  localStorageToken : Option String
  authHeader : Option String
  auth : AuthState
deriving DecidableEq, Repr

/-- A successful response of POST /api/v1/auth/login. -/
structure LoginSuccessResponse where
  access_token : String
  user : User
deriving DecidableEq, Repr

/-- A rejected login request; `detail` models
error.response?.data?.detail (absent when the response or the field is
missing). -/
structure LoginFailureResponse where
  detail : Option String
deriving DecidableEq, Repr

/-- The value returned by the login function. -/
structure LoginCallResult where
  success : Bool
  error : Option String
deriving DecidableEq, Repr

/-- JavaScript's s-or-default idiom v \x7c\x7c dflt on an optional string:
an absent or empty (falsy) string yields the default. -/
def jsStringOr (v : Option String) (dflt : String) : String :=
  match v with
  | some s => if s = "" then dflt else s
  | none => dflt

/-- The login function of useAuth.ts: on success it stores the token in
localStorage, sets the axios Authorization default header, and sets the
auth state; on rejection it returns success false with the detail message
(falling back to the string Login failed) and changes nothing. -/
def login (resp : Except LoginFailureResponse LoginSuccessResponse) (st : BrowserAuth) :
    LoginCallResult × BrowserAuth :=
  match resp with
  | Except.ok r =>
    ({ success := true, error := none },
     { localStorageToken := some r.access_token,
       authHeader := some ("Bearer " ++ r.access_token),
       auth := { user := some r.user, token := some r.access_token, loading := false } })
  | Except.error e =>
    ({ success := false, error := some (jsStringOr e.detail "Login failed") }, st)

/-! ## Frontend: App routing (embedded from frontend/src/App.tsx) -/

/-- What the App component renders for a path. -/
inductive RenderedPage
  | loginPage
  | registerPage
  | dashboard
  | brands
  | contentGeneration
  | campaigns
  | redirectToLogin
  | redirectToRoot
deriving DecidableEq, Repr

/-- The App component's route selection (App.tsx): with no user only
/login and /register render and every other path redirects to /login;
with a user the four authenticated pages render and unknown paths redirect
to the root. -/
def appRoute (user : Option User) (path : String) : RenderedPage :=
  match user with
  | none =>
    if path = "/login" then RenderedPage.loginPage
    else if path = "/register" then RenderedPage.registerPage
    else RenderedPage.redirectToLogin
  | some _ =>
    if path = "/" then RenderedPage.dashboard
    else if path = "/brands" then RenderedPage.brands
    else if path = "/content" then RenderedPage.contentGeneration
    else if path = "/campaigns" then RenderedPage.campaigns
    else RenderedPage.redirectToRoot

/-- The pages only reachable when authenticated. -/
def isAuthenticatedPage : RenderedPage → Bool
  | RenderedPage.dashboard => true
  | RenderedPage.brands => true
  | RenderedPage.contentGeneration => true
  | RenderedPage.campaigns => true
  | _ => false

/-! ## Helper lemmas -/

theorem lookupHealth_update_self (hm : HealthMap) (n : String) (h : ProviderHealth) :
    lookupHealth (updateHealth hm n h) n = h := by
  simp [lookupHealth, updateHealth, List.find?]

theorem find?_filter_ne (l : List (String × ProviderHealth)) (n m : String) (hne : m ≠ n) :
    List.find? (fun p => p.1 == m) (List.filter (fun p => p.1 != n) l)
      = List.find? (fun p => p.1 == m) l := by
  have hnm : (n == m) = false := by
    simp
    exact fun h => hne h.symm
  induction l with
  | nil => rfl
  | cons q t ih =>
    rcases q with ⟨qn, qh⟩
    by_cases hq : qn = n
    · subst hq
      simp [List.filter_cons, List.find?, hnm, ih]
    · have hqn : (qn != n) = true := by simp [hq]
      simp only [List.filter_cons, hqn, if_true]
      by_cases hm2 : qn = m
      · subst hm2
        simp [List.find?]
      · simp [List.find?, hm2, ih]

theorem lookupHealth_update_ne (hm : HealthMap) (n m : String) (h : ProviderHealth)
    (hne : m ≠ n) : lookupHealth (updateHealth hm n h) m = lookupHealth hm m := by
  have hnm : (n == m) = false := by
    simp
    exact fun h2 => hne h2.symm
  simp [lookupHealth, updateHealth, List.find?, hnm, find?_filter_ne hm n m hne]

theorem runAdapter_all_transient (a : Adapter)
    (hb : ∀ k, a.behavior k = Except.error ProviderError.transientError) :
    ∀ n idx, runAdapter a (n + 1) idx
      = (Except.error ProviderError.transientError, idx + n + 1) := by
  intro n
  induction n with
  | zero => intro idx; simp [runAdapter, hb idx]
  | succ m ih =>
    intro idx
    have : runAdapter a (m + 1 + 1) idx = runAdapter a (m + 1) (idx + 1) := by
      simp [runAdapter, hb idx, ProviderError.retryable]
    rw [this, ih (idx + 1)]
    simp only [Prod.mk.injEq]
    exact ⟨trivial, by omega⟩

theorem runAdapter_ok_first (a : Adapter) (idx n : Nat) (r : ProviderResult)
    (hb : a.behavior idx = Except.ok r) :
    runAdapter a (n + 1) idx = (Except.ok r, idx + 1) := by
  simp [runAdapter, hb]

theorem runAdapter_nonretryable_first (a : Adapter) (idx n : Nat) (e : ProviderError)
    (hb : a.behavior idx = Except.error e) (hr : e.retryable = false) :
    runAdapter a (n + 1) idx = (Except.error e, idx + 1) := by
  simp [runAdapter, hb, hr]

theorem runAdapter_never_ok (a : Adapter)
    (hb : ∀ k, ∃ e, a.behavior k = Except.error e) :
    ∀ n idx, ∃ e m, runAdapter a n idx = (Except.error e, m) := by
  intro n
  induction n with
  | zero => intro idx; exact ⟨ProviderError.transientError, idx, rfl⟩
  | succ m ih =>
    intro idx
    obtain ⟨e, he⟩ := hb idx
    by_cases hc : e.retryable && m != 0
    · obtain ⟨e', m', hrec⟩ := ih (idx + 1)
      refine ⟨e', m', ?_⟩
      simp [runAdapter, he, hc, hrec]
    · refine ⟨e, idx + 1, ?_⟩
      simp [runAdapter, he]
      intro h1 h2
      exact absurd (by simp [h1, h2]) hc

theorem executeGo_skip (cfg : FailoverConfig) (now : Nat) (a : Adapter)
    (rest : List Adapter) (hm : HealthMap) (trail : List TrailEntry)
    (hopen : circuitOpenAt cfg (lookupHealth hm a.name) now = true) :
    executeGo cfg now (a :: rest) hm trail
      = executeGo cfg now rest hm
          (trail ++ [{ provider := a.name, outcome := ExecOutcome.circuitOpen, attempts := 0 }]) := by
  simp [executeGo, hopen]

theorem executeGo_success (cfg : FailoverConfig) (now : Nat) (a : Adapter)
    (rest : List Adapter) (hm : HealthMap) (trail : List TrailEntry)
    (r : ProviderResult) (n : Nat)
    (hopen : circuitOpenAt cfg (lookupHealth hm a.name) now = false)
    (hrun : runAdapter a
        (if halfOpenAt cfg (lookupHealth hm a.name) now then 1 else cfg.maxRetries + 1) 0
      = (Except.ok r, n)) :
    executeGo cfg now (a :: rest) hm trail
      = (ExecuteResult.ok r
          (trail ++ [{ provider := a.name, outcome := ExecOutcome.success, attempts := n }]),
         updateHealth hm a.name { consecutiveFailures := 0, coolDownUntil := 0 }) := by
  simp [executeGo, hopen, hrun]

theorem executeGo_failure (cfg : FailoverConfig) (now : Nat) (a : Adapter)
    (rest : List Adapter) (hm : HealthMap) (trail : List TrailEntry)
    (e : ProviderError) (n : Nat)
    (hopen : circuitOpenAt cfg (lookupHealth hm a.name) now = false)
    (hrun : runAdapter a
        (if halfOpenAt cfg (lookupHealth hm a.name) now then 1 else cfg.maxRetries + 1) 0
      = (Except.error e, n)) :
    executeGo cfg now (a :: rest) hm trail
      = executeGo cfg now rest
          (updateHealth hm a.name (failureHealth cfg now (lookupHealth hm a.name)))
          (trail ++ [{ provider := a.name, outcome := ExecOutcome.failed e, attempts := n }]) := by
  simp [executeGo, hopen, hrun]

/-- An adapter whose backend never returns a successful response during
this call. -/
def neverSucceeds (a : Adapter) : Prop :=
  ∀ k, ∃ e, a.behavior k = Except.error e

theorem executeGo_all_fail (cfg : FailoverConfig) (now : Nat) :
    ∀ (adapters : List Adapter) (hm : HealthMap) (trail : List TrailEntry),
      (adapters.map Adapter.name).Nodup →
      (∀ a ∈ adapters,
        circuitOpenAt cfg (lookupHealth hm a.name) now = true ∨ neverSucceeds a) →
      ∃ s hm', executeGo cfg now adapters hm trail
          = (ExecuteResult.allProvidersUnavailable (trail ++ s), hm')
        ∧ s.map TrailEntry.provider = adapters.map Adapter.name := by
  intro adapters
  induction adapters with
  | nil =>
    intro hm trail _ _
    exact ⟨[], hm, by simp [executeGo], by simp⟩
  | cons a rest ih =>
    intro hm trail hnodup hall
    have hnd : (∀ x ∈ rest, ¬x.name = a.name) ∧ (List.map Adapter.name rest).Nodup := by
      simpa using hnodup
    by_cases hopen : circuitOpenAt cfg (lookupHealth hm a.name) now = true
    · obtain ⟨s, hm', heq, hmap⟩ := ih hm
        (trail ++ [{ provider := a.name, outcome := ExecOutcome.circuitOpen, attempts := 0 }])
        hnd.2 (fun b hb => hall b (List.mem_cons_of_mem a hb))
      refine ⟨{ provider := a.name, outcome := ExecOutcome.circuitOpen, attempts := 0 } :: s,
        hm', ?_, ?_⟩
      · rw [executeGo_skip cfg now a rest hm trail hopen, heq]
        simp
      · simp [hmap]
    · have hnever : neverSucceeds a := by
        rcases hall a (List.mem_cons_self a rest) with h | h
        · exact absurd h hopen
        · exact h
      obtain ⟨e, n, hrun⟩ := runAdapter_never_ok a hnever
        (if halfOpenAt cfg (lookupHealth hm a.name) now then 1 else cfg.maxRetries + 1) 0
      have hopen' : circuitOpenAt cfg (lookupHealth hm a.name) now = false := by
        exact Bool.not_eq_true _ |>.mp hopen
      have hbn : ∀ b ∈ rest, b.name ≠ a.name := fun b hb => hnd.1 b hb
      obtain ⟨s, hm', heq, hmap⟩ := ih
        (updateHealth hm a.name (failureHealth cfg now (lookupHealth hm a.name)))
        (trail ++ [{ provider := a.name, outcome := ExecOutcome.failed e, attempts := n }])
        hnd.2
        (fun b hb => by
          rcases hall b (List.mem_cons_of_mem a hb) with h | h
          · left
            rw [lookupHealth_update_ne hm a.name b.name _ (hbn b hb)]
            exact h
          · right
            exact h)
      refine ⟨{ provider := a.name, outcome := ExecOutcome.failed e, attempts := n } :: s,
        hm', ?_, ?_⟩
      · rw [executeGo_failure cfg now a rest hm trail e n hopen' hrun, heq]
        simp
      · simp [hmap]

theorem Registry.execute_fst (cfg : FailoverConfig) (now : Nat) (reg : Registry)
    (hint : Option String) :
    (Registry.execute cfg now reg hint).1
      = (executeGo cfg now (reorderWithHint hint reg.order) reg.health []).1 := by
  unfold Registry.execute
  rcases executeGo cfg now (reorderWithHint hint reg.order) reg.health [] with ⟨res, hm⟩
  rfl

theorem Registry.execute_order (cfg : FailoverConfig) (now : Nat) (reg : Registry)
    (hint : Option String) :
    (Registry.execute cfg now reg hint).2.order = reg.order := by
  unfold Registry.execute
  rcases executeGo cfg now (reorderWithHint hint reg.order) reg.health [] with ⟨res, hm⟩
  rfl

theorem lookupHealth_nil (name : String) :
    lookupHealth [] name = { consecutiveFailures := 0, coolDownUntil := 0 } := rfl

theorem circuitOpenAt_fresh (cfg : FailoverConfig) (now : Nat) :
    circuitOpenAt cfg { consecutiveFailures := 0, coolDownUntil := 0 } now = false := by
  simp [circuitOpenAt]

theorem halfOpenAt_fresh (cfg : FailoverConfig) (now : Nat) (hthr : 0 < cfg.threshold) :
    halfOpenAt cfg { consecutiveFailures := 0, coolDownUntil := 0 } now = false := by
  simp [halfOpenAt]
  omega

/-- C1: for a primary adapter failing transiently on every bounded retry
attempt and a succeeding fallback, execute returns the fallback's result
with the trail showing the primary's exhausted retries then the fallback's
success; and in general the first succeeding adapter's result is returned
immediately, later adapters never being invoked (the outcome does not
depend on them). -/
theorem failover_first_success_wins :
    (∀ (cfg : FailoverConfig) (now : Nat) (p f : Adapter) (r : ProviderResult),
      0 < cfg.threshold →
      p.name ≠ f.name →
      (∀ k, p.behavior k = Except.error ProviderError.transientError) →
      f.behavior 0 = Except.ok r →
      (Registry.execute cfg now { order := [p, f], health := [] } none).1
        = ExecuteResult.ok r
            [{ provider := p.name, outcome := ExecOutcome.failed ProviderError.transientError,
               attempts := cfg.maxRetries + 1 },
             { provider := f.name, outcome := ExecOutcome.success, attempts := 1 }])
  ∧ (∀ (cfg : FailoverConfig) (now : Nat) (a : Adapter) (rest : List Adapter)
        (hm : HealthMap) (trail : List TrailEntry) (r : ProviderResult) (n : Nat),
      circuitOpenAt cfg (lookupHealth hm a.name) now = false →
      runAdapter a
          (if halfOpenAt cfg (lookupHealth hm a.name) now then 1 else cfg.maxRetries + 1) 0
        = (Except.ok r, n) →
      executeGo cfg now (a :: rest) hm trail
        = (ExecuteResult.ok r
            (trail ++ [{ provider := a.name, outcome := ExecOutcome.success, attempts := n }]),
           updateHealth hm a.name { consecutiveFailures := 0, coolDownUntil := 0 })) := by
  constructor
  · intro cfg now p f r hthr hne hp hf
    rw [Registry.execute_fst]
    simp only [reorderWithHint]
    have hopen_p : circuitOpenAt cfg (lookupHealth [] p.name) now = false := by
      rw [lookupHealth_nil]
      exact circuitOpenAt_fresh cfg now
    have hrun_p : runAdapter p
        (if halfOpenAt cfg (lookupHealth [] p.name) now then 1 else cfg.maxRetries + 1) 0
        = (Except.error ProviderError.transientError, cfg.maxRetries + 1) := by
      rw [lookupHealth_nil, halfOpenAt_fresh cfg now hthr]
      simpa using runAdapter_all_transient p hp cfg.maxRetries 0
    rw [executeGo_failure cfg now p [f] [] [] ProviderError.transientError
      (cfg.maxRetries + 1) hopen_p hrun_p]
    have hlf : lookupHealth
        (updateHealth [] p.name (failureHealth cfg now (lookupHealth [] p.name))) f.name
        = { consecutiveFailures := 0, coolDownUntil := 0 } := by
      rw [lookupHealth_update_ne [] p.name f.name _ (Ne.symm hne), lookupHealth_nil]
    have hopen_f : circuitOpenAt cfg (lookupHealth
        (updateHealth [] p.name (failureHealth cfg now (lookupHealth [] p.name))) f.name) now
        = false := by
      rw [hlf]
      exact circuitOpenAt_fresh cfg now
    have hrun_f : runAdapter f
        (if halfOpenAt cfg (lookupHealth
            (updateHealth [] p.name (failureHealth cfg now (lookupHealth [] p.name))) f.name) now
          then 1 else cfg.maxRetries + 1) 0
        = (Except.ok r, 1) := by
      rw [hlf, halfOpenAt_fresh cfg now hthr]
      simpa using runAdapter_ok_first f 0 cfg.maxRetries r hf
    rw [executeGo_success cfg now f [] _ _ r 1 hopen_f hrun_f]
    simp
  · intro cfg now a rest hm trail r n hopen hrun
    exact executeGo_success cfg now a rest hm trail r n hopen hrun

/-- Witness for C1 at a concrete configuration: a primary that always
fails transiently and a fallback that succeeds. -/
theorem failover_first_success_wins_witness :
    (Registry.execute {} 5
        { order := [{ name := "claude",
                      behavior := fun _ => Except.error ProviderError.transientError },
                    { name := "gemini",
                      behavior := fun _ => Except.ok
                        { providerId := "gemini", payload := "ad copy",
                          tokensUsed := 10, latencyMs := 20 } }],
          health := [] } none).1
      = ExecuteResult.ok
          { providerId := "gemini", payload := "ad copy", tokensUsed := 10, latencyMs := 20 }
          [{ provider := "claude", outcome := ExecOutcome.failed ProviderError.transientError,
             attempts := 3 },
           { provider := "gemini", outcome := ExecOutcome.success, attempts := 1 }] :=
  failover_first_success_wins.1 {} 5
    { name := "claude", behavior := fun _ => Except.error ProviderError.transientError }
    { name := "gemini",
      behavior := fun _ => Except.ok
        { providerId := "gemini", payload := "ad copy", tokensUsed := 10, latencyMs := 20 } }
    { providerId := "gemini", payload := "ad copy", tokensUsed := 10, latencyMs := 20 }
    (by decide) (by decide) (fun k => rfl) rfl

theorem runAdapter_probe_failure (a : Adapter) (idx : Nat) (e : ProviderError)
    (hb : a.behavior idx = Except.error e) :
    runAdapter a 1 idx = (Except.error e, idx + 1) := by
  simp [runAdapter, hb]

theorem coolDownWindow_le_cap (cfg : FailoverConfig) (failures : Nat) :
    coolDownWindow cfg failures ≤ cfg.coolDownCap :=
  min_le_right _ _

theorem coolDownWindow_mono (cfg : FailoverConfig) (failures : Nat) :
    coolDownWindow cfg failures ≤ coolDownWindow cfg (failures + 1) := by
  unfold coolDownWindow
  refine min_le_min ?_ le_rfl
  exact Nat.mul_le_mul_left _ (Nat.pow_le_pow_right (by omega) (by omega))

/-- C2: the per-adapter circuit breaker. With the failure count at or
beyond the threshold and the current time before cool-down-until, execute
skips the adapter recording `circuit_open`; once the cool-down has
expired the adapter is half-open and receives exactly one probe attempt,
returning to Closed (zero failures) on probe success and to Open with a
longer, capped cool-down on probe failure; and a failure that brings the
count to the threshold opens the circuit with cool-down-until set to now
plus the cool-down window. -/
theorem circuit_breaker_state_machine :
    (∀ (cfg : FailoverConfig) (now : Nat) (a : Adapter) (rest : List Adapter)
        (hm : HealthMap) (trail : List TrailEntry),
      cfg.threshold ≤ (lookupHealth hm a.name).consecutiveFailures →
      now < (lookupHealth hm a.name).coolDownUntil →
      executeGo cfg now (a :: rest) hm trail
        = executeGo cfg now rest hm
            (trail ++ [{ provider := a.name, outcome := ExecOutcome.circuitOpen,
                         attempts := 0 }]))
  ∧ (∀ (cfg : FailoverConfig) (now : Nat) (a : Adapter) (rest : List Adapter)
        (hm : HealthMap) (trail : List TrailEntry) (r : ProviderResult),
      cfg.threshold ≤ (lookupHealth hm a.name).consecutiveFailures →
      (lookupHealth hm a.name).coolDownUntil ≤ now →
      a.behavior 0 = Except.ok r →
      executeGo cfg now (a :: rest) hm trail
        = (ExecuteResult.ok r
            (trail ++ [{ provider := a.name, outcome := ExecOutcome.success, attempts := 1 }]),
           updateHealth hm a.name { consecutiveFailures := 0, coolDownUntil := 0 }))
  ∧ (∀ (cfg : FailoverConfig) (now : Nat) (a : Adapter) (rest : List Adapter)
        (hm : HealthMap) (trail : List TrailEntry) (e : ProviderError),
      cfg.threshold ≤ (lookupHealth hm a.name).consecutiveFailures →
      (lookupHealth hm a.name).coolDownUntil ≤ now →
      a.behavior 0 = Except.error e →
      executeGo cfg now (a :: rest) hm trail
          = executeGo cfg now rest
              (updateHealth hm a.name
                { consecutiveFailures := (lookupHealth hm a.name).consecutiveFailures + 1,
                  coolDownUntil := now
                    + coolDownWindow cfg ((lookupHealth hm a.name).consecutiveFailures + 1) })
              (trail ++ [{ provider := a.name, outcome := ExecOutcome.failed e, attempts := 1 }])
        ∧ coolDownWindow cfg ((lookupHealth hm a.name).consecutiveFailures + 1)
            ≤ cfg.coolDownCap
        ∧ coolDownWindow cfg (lookupHealth hm a.name).consecutiveFailures
            ≤ coolDownWindow cfg ((lookupHealth hm a.name).consecutiveFailures + 1))
  ∧ (∀ (cfg : FailoverConfig) (now : Nat) (a : Adapter) (rest : List Adapter)
        (hm : HealthMap) (trail : List TrailEntry) (e : ProviderError) (n : Nat),
      0 < cfg.threshold →
      (lookupHealth hm a.name).consecutiveFailures = cfg.threshold - 1 →
      runAdapter a (cfg.maxRetries + 1) 0 = (Except.error e, n) →
      executeGo cfg now (a :: rest) hm trail
        = executeGo cfg now rest
            (updateHealth hm a.name
              { consecutiveFailures := cfg.threshold,
                coolDownUntil := now + coolDownWindow cfg cfg.threshold })
            (trail ++ [{ provider := a.name, outcome := ExecOutcome.failed e,
                         attempts := n }])) := by
  refine ⟨?_, ?_, ?_, ?_⟩
  · intro cfg now a rest hm trail hthr hcd
    refine executeGo_skip cfg now a rest hm trail ?_
    simp [circuitOpenAt, hthr, hcd]
  · intro cfg now a rest hm trail r hthr hcd hb
    have hopen : circuitOpenAt cfg (lookupHealth hm a.name) now = false := by
      simp [circuitOpenAt]
      omega
    have hhalf : halfOpenAt cfg (lookupHealth hm a.name) now = true := by
      simp [halfOpenAt, hthr, hcd]
    have hrun : runAdapter a
        (if halfOpenAt cfg (lookupHealth hm a.name) now then 1 else cfg.maxRetries + 1) 0
        = (Except.ok r, 1) := by
      rw [hhalf]
      simpa using runAdapter_ok_first a 0 0 r hb
    exact executeGo_success cfg now a rest hm trail r 1 hopen hrun
  · intro cfg now a rest hm trail e hthr hcd hb
    have hopen : circuitOpenAt cfg (lookupHealth hm a.name) now = false := by
      simp [circuitOpenAt]
      omega
    have hhalf : halfOpenAt cfg (lookupHealth hm a.name) now = true := by
      simp [halfOpenAt, hthr, hcd]
    have hrun : runAdapter a
        (if halfOpenAt cfg (lookupHealth hm a.name) now then 1 else cfg.maxRetries + 1) 0
        = (Except.error e, 1) := by
      rw [hhalf]
      simpa using runAdapter_probe_failure a 0 e hb
    refine ⟨?_, coolDownWindow_le_cap cfg _, coolDownWindow_mono cfg _⟩
    have hfh : failureHealth cfg now (lookupHealth hm a.name)
        = { consecutiveFailures := (lookupHealth hm a.name).consecutiveFailures + 1,
            coolDownUntil := now
              + coolDownWindow cfg ((lookupHealth hm a.name).consecutiveFailures + 1) } := by
      unfold failureHealth
      rw [if_pos (by omega)]
    rw [executeGo_failure cfg now a rest hm trail e 1 hopen hrun, hfh]
  · intro cfg now a rest hm trail e n hthr hcount hrun
    have hopen : circuitOpenAt cfg (lookupHealth hm a.name) now = false := by
      simp [circuitOpenAt, hcount]
      omega
    have hhalf : halfOpenAt cfg (lookupHealth hm a.name) now = false := by
      simp [halfOpenAt, hcount]
      omega
    have hrun' : runAdapter a
        (if halfOpenAt cfg (lookupHealth hm a.name) now then 1 else cfg.maxRetries + 1) 0
        = (Except.error e, n) := by
      rw [hhalf]
      simpa using hrun
    have hfh : failureHealth cfg now (lookupHealth hm a.name)
        = { consecutiveFailures := cfg.threshold,
            coolDownUntil := now + coolDownWindow cfg cfg.threshold } := by
      unfold failureHealth
      rw [hcount, if_pos (by omega)]
      have : cfg.threshold - 1 + 1 = cfg.threshold := by omega
      rw [this]
    rw [executeGo_failure cfg now a rest hm trail e n hopen hrun', hfh]

/-- Witness for C2: concrete probes of each circuit-breaker transition,
with the default threshold 3 reached and a cool-down of 60. -/
theorem circuit_breaker_state_machine_witness :
    (executeGo {} 10
        [{ name := "claude", behavior := fun _ => Except.error ProviderError.transientError }]
        [("claude", { consecutiveFailures := 3, coolDownUntil := 70 })] []
      = executeGo {} 10 []
          [("claude", { consecutiveFailures := 3, coolDownUntil := 70 })]
          [{ provider := "claude", outcome := ExecOutcome.circuitOpen, attempts := 0 }])
    ∧ (executeGo {} 80
        [{ name := "ok1", behavior := fun _ => Except.ok
            { providerId := "ok1", payload := "x", tokensUsed := 1, latencyMs := 1 } }]
        [("ok1", { consecutiveFailures := 3, coolDownUntil := 70 })] []
      = (ExecuteResult.ok
          { providerId := "ok1", payload := "x", tokensUsed := 1, latencyMs := 1 }
          [{ provider := "ok1", outcome := ExecOutcome.success, attempts := 1 }],
         updateHealth [("ok1", { consecutiveFailures := 3, coolDownUntil := 70 })] "ok1"
           { consecutiveFailures := 0, coolDownUntil := 0 }))
    ∧ (executeGo {} 80
        [{ name := "bad", behavior := fun _ => Except.error ProviderError.transientError }]
        [("bad", { consecutiveFailures := 3, coolDownUntil := 70 })] []
      = executeGo {} 80 []
          (updateHealth [("bad", { consecutiveFailures := 3, coolDownUntil := 70 })] "bad"
            { consecutiveFailures := 4, coolDownUntil := 80 + coolDownWindow {} 4 })
          [{ provider := "bad", outcome := ExecOutcome.failed ProviderError.transientError,
             attempts := 1 }])
    ∧ (executeGo {} 10
        [{ name := "bad2", behavior := fun _ => Except.error ProviderError.transientError }]
        [("bad2", { consecutiveFailures := 2, coolDownUntil := 0 })] []
      = executeGo {} 10 []
          (updateHealth [("bad2", { consecutiveFailures := 2, coolDownUntil := 0 })] "bad2"
            { consecutiveFailures := 3, coolDownUntil := 10 + coolDownWindow {} 3 })
          [{ provider := "bad2", outcome := ExecOutcome.failed ProviderError.transientError,
             attempts := 3 }]) := by
  refine ⟨?_, ?_, ?_, ?_⟩
  · exact circuit_breaker_state_machine.1 {} 10
      { name := "claude", behavior := fun _ => Except.error ProviderError.transientError }
      [] [("claude", { consecutiveFailures := 3, coolDownUntil := 70 })] []
      (by decide) (by decide)
  · exact circuit_breaker_state_machine.2.1 {} 80
      { name := "ok1", behavior := fun _ => Except.ok
          { providerId := "ok1", payload := "x", tokensUsed := 1, latencyMs := 1 } }
      [] [("ok1", { consecutiveFailures := 3, coolDownUntil := 70 })] []
      { providerId := "ok1", payload := "x", tokensUsed := 1, latencyMs := 1 }
      (by decide) (by decide) rfl
  · exact (circuit_breaker_state_machine.2.2.1 {} 80
      { name := "bad", behavior := fun _ => Except.error ProviderError.transientError }
      [] [("bad", { consecutiveFailures := 3, coolDownUntil := 70 })] []
      ProviderError.transientError (by decide) (by decide) rfl).1
  · exact circuit_breaker_state_machine.2.2.2 {} 10
      { name := "bad2", behavior := fun _ => Except.error ProviderError.transientError }
      [] [("bad2", { consecutiveFailures := 2, coolDownUntil := 0 })] []
      ProviderError.transientError 3 (by decide) (by decide) (by rfl)

/-- C5: when the primary adapter raises `AuthError` (not retryable), it is
attempted exactly once — no retries — and the fallback is tried
immediately; with a succeeding fallback the trail is exactly the primary's
AuthError outcome followed by the fallback's success. -/
theorem auth_error_immediate_failover :
    ∀ (cfg : FailoverConfig) (now : Nat) (p f : Adapter) (r : ProviderResult),
      0 < cfg.threshold →
      p.name ≠ f.name →
      p.behavior 0 = Except.error ProviderError.authError →
      f.behavior 0 = Except.ok r →
      (Registry.execute cfg now { order := [p, f], health := [] } none).1
        = ExecuteResult.ok r
            [{ provider := p.name, outcome := ExecOutcome.failed ProviderError.authError,
               attempts := 1 },
             { provider := f.name, outcome := ExecOutcome.success, attempts := 1 }] := by
  intro cfg now p f r hthr hne hp hf
  rw [Registry.execute_fst]
  simp only [reorderWithHint]
  have hopen_p : circuitOpenAt cfg (lookupHealth [] p.name) now = false := by
    rw [lookupHealth_nil]
    exact circuitOpenAt_fresh cfg now
  have hrun_p : runAdapter p
      (if halfOpenAt cfg (lookupHealth [] p.name) now then 1 else cfg.maxRetries + 1) 0
      = (Except.error ProviderError.authError, 1) := by
    rw [lookupHealth_nil, halfOpenAt_fresh cfg now hthr]
    simpa using runAdapter_nonretryable_first p 0 cfg.maxRetries
      ProviderError.authError hp rfl
  rw [executeGo_failure cfg now p [f] [] [] ProviderError.authError 1 hopen_p hrun_p]
  have hlf : lookupHealth
      (updateHealth [] p.name (failureHealth cfg now (lookupHealth [] p.name))) f.name
      = { consecutiveFailures := 0, coolDownUntil := 0 } := by
    rw [lookupHealth_update_ne [] p.name f.name _ (Ne.symm hne), lookupHealth_nil]
  have hopen_f : circuitOpenAt cfg (lookupHealth
      (updateHealth [] p.name (failureHealth cfg now (lookupHealth [] p.name))) f.name) now
      = false := by
    rw [hlf]
    exact circuitOpenAt_fresh cfg now
  have hrun_f : runAdapter f
      (if halfOpenAt cfg (lookupHealth
          (updateHealth [] p.name (failureHealth cfg now (lookupHealth [] p.name))) f.name) now
        then 1 else cfg.maxRetries + 1) 0
      = (Except.ok r, 1) := by
    rw [hlf, halfOpenAt_fresh cfg now hthr]
    simpa using runAdapter_ok_first f 0 cfg.maxRetries r hf
  rw [executeGo_success cfg now f [] _ _ r 1 hopen_f hrun_f]
  simp

/-- Witness for C5: a primary that always raises AuthError and a fallback
that succeeds, at the default configuration. -/
theorem auth_error_immediate_failover_witness :
    (Registry.execute {} 0
        { order := [{ name := "claude",
                      behavior := fun _ => Except.error ProviderError.authError },
                    { name := "gemini",
                      behavior := fun _ => Except.ok
                        { providerId := "gemini", payload := "ok", tokensUsed := 1,
                          latencyMs := 2 } }],
          health := [] } none).1
      = ExecuteResult.ok
          { providerId := "gemini", payload := "ok", tokensUsed := 1, latencyMs := 2 }
          [{ provider := "claude", outcome := ExecOutcome.failed ProviderError.authError,
             attempts := 1 },
           { provider := "gemini", outcome := ExecOutcome.success, attempts := 1 }] :=
  auth_error_immediate_failover {} 0
    { name := "claude", behavior := fun _ => Except.error ProviderError.authError }
    { name := "gemini",
      behavior := fun _ => Except.ok
        { providerId := "gemini", payload := "ok", tokensUsed := 1, latencyMs := 2 } }
    { providerId := "gemini", payload := "ok", tokensUsed := 1, latencyMs := 2 }
    (by decide) (by decide) rfl rfl

theorem executeGo_trail_extends (cfg : FailoverConfig) (now : Nat) :
    ∀ (adapters : List Adapter) (hm : HealthMap) (trail : List TrailEntry),
      ∃ s, ((executeGo cfg now adapters hm trail).1).trailOf = trail ++ s := by
  intro adapters
  induction adapters with
  | nil =>
    intro hm trail
    exact ⟨[], by simp [executeGo, ExecuteResult.trailOf]⟩
  | cons a rest ih =>
    intro hm trail
    by_cases hopen : circuitOpenAt cfg (lookupHealth hm a.name) now = true
    · obtain ⟨s, hs⟩ := ih hm
        (trail ++ [{ provider := a.name, outcome := ExecOutcome.circuitOpen, attempts := 0 }])
      refine ⟨{ provider := a.name, outcome := ExecOutcome.circuitOpen, attempts := 0 } :: s, ?_⟩
      rw [executeGo_skip cfg now a rest hm trail hopen, hs]
      simp
    · have hopen' : circuitOpenAt cfg (lookupHealth hm a.name) now = false :=
        Bool.not_eq_true _ |>.mp hopen
      rcases hrun : runAdapter a
          (if halfOpenAt cfg (lookupHealth hm a.name) now then 1 else cfg.maxRetries + 1) 0
        with ⟨res, n⟩
      cases res with
      | ok r =>
        refine ⟨[{ provider := a.name, outcome := ExecOutcome.success, attempts := n }], ?_⟩
        rw [executeGo_success cfg now a rest hm trail r n hopen' hrun]
        rfl
      | error e =>
        obtain ⟨s, hs⟩ := ih
          (updateHealth hm a.name (failureHealth cfg now (lookupHealth hm a.name)))
          (trail ++ [{ provider := a.name, outcome := ExecOutcome.failed e, attempts := n }])
        refine ⟨{ provider := a.name, outcome := ExecOutcome.failed e, attempts := n } :: s, ?_⟩
        rw [executeGo_failure cfg now a rest hm trail e n hopen' hrun, hs]
        simp

theorem executeGo_head_entry (cfg : FailoverConfig) (now : Nat) (a : Adapter)
    (rest : List Adapter) (hm : HealthMap) :
    ∃ o n s, ((executeGo cfg now (a :: rest) hm []).1).trailOf
      = { provider := a.name, outcome := o, attempts := n } :: s := by
  obtain ⟨s, hs⟩ := executeGo_trail_extends cfg now (a :: rest) hm []
  simp only [List.nil_append] at hs
  by_cases hopen : circuitOpenAt cfg (lookupHealth hm a.name) now = true
  · obtain ⟨s', hs'⟩ := executeGo_trail_extends cfg now rest hm
      [{ provider := a.name, outcome := ExecOutcome.circuitOpen, attempts := 0 }]
    refine ⟨ExecOutcome.circuitOpen, 0, s', ?_⟩
    rw [executeGo_skip cfg now a rest hm [] hopen]
    simpa using hs'
  · have hopen' : circuitOpenAt cfg (lookupHealth hm a.name) now = false :=
      Bool.not_eq_true _ |>.mp hopen
    rcases hrun : runAdapter a
        (if halfOpenAt cfg (lookupHealth hm a.name) now then 1 else cfg.maxRetries + 1) 0
      with ⟨res, n⟩
    cases res with
    | ok r =>
      refine ⟨ExecOutcome.success, n, [], ?_⟩
      rw [executeGo_success cfg now a rest hm [] r n hopen' hrun]
      rfl
    | error e =>
      obtain ⟨s', hs'⟩ := executeGo_trail_extends cfg now rest
        (updateHealth hm a.name (failureHealth cfg now (lookupHealth hm a.name)))
        [{ provider := a.name, outcome := ExecOutcome.failed e, attempts := n }]
      refine ⟨ExecOutcome.failed e, n, s', ?_⟩
      rw [executeGo_failure cfg now a rest hm [] e n hopen' hrun]
      simpa using hs'

theorem filter_name_head (l : List Adapter) (h : String)
    (hx : ∃ a, a ∈ l ∧ a.name = h) :
    ∃ b bs, l.filter (fun x => x.name == h) = b :: bs ∧ b.name = h := by
  induction l with
  | nil =>
    rcases hx with ⟨a, ha, _⟩
    cases ha
  | cons a t ih =>
    by_cases hb : a.name = h
    · exact ⟨a, t.filter (fun x => x.name == h), by simp [List.filter_cons, hb], hb⟩
    · rcases hx with ⟨c, hc, hcn⟩
      rcases List.mem_cons.mp hc with rfl | hct
      · exact absurd hcn hb
      · obtain ⟨b, bs, heq, hbn⟩ := ih ⟨c, hct, hcn⟩
        exact ⟨b, bs, by simp [List.filter_cons, hb, heq], hbn⟩

/-- C7: a caller-supplied provider hint is scoped to the call — the hinted
adapter is tried first (the first attempt-trail entry names it), the
registry's default order is unchanged after the call, and a call without a
hint iterates the adapters in the registry's original priority order. -/
theorem provider_hint_scoped_to_call :
    (∀ (cfg : FailoverConfig) (now : Nat) (reg : Registry) (hint : Option String),
      (Registry.execute cfg now reg hint).2.order = reg.order)
  ∧ (∀ adapters : List Adapter, reorderWithHint none adapters = adapters)
  ∧ (∀ (cfg : FailoverConfig) (now : Nat) (reg : Registry) (h : String),
      (∃ a, a ∈ reg.order ∧ a.name = h) →
      ∃ o n s, ((Registry.execute cfg now reg (some h)).1).trailOf
        = { provider := h, outcome := o, attempts := n } :: s) := by
  refine ⟨Registry.execute_order, fun adapters => rfl, ?_⟩
  intro cfg now reg h hx
  rw [Registry.execute_fst]
  obtain ⟨b, bs, hfil, hbn⟩ := filter_name_head reg.order h hx
  have heff : reorderWithHint (some h) reg.order
      = b :: (bs ++ reg.order.filter (fun x => x.name != h)) := by
    simp [reorderWithHint, hfil]
  rw [heff]
  obtain ⟨o, n, s, hs⟩ := executeGo_head_entry cfg now b
    (bs ++ reg.order.filter (fun x => x.name != h)) reg.health
  exact ⟨o, n, s, by rw [hs, hbn]⟩

/-- A sample adapter succeeding with a fixed result, used by witnesses. -/
def claudeAdapter : Adapter :=
  { name := "claude",
    behavior := fun _ => Except.ok
      { providerId := "claude", payload := "a", tokensUsed := 1, latencyMs := 1 } }

/-- A second sample adapter succeeding with a fixed result, used by
witnesses. -/
def geminiAdapter : Adapter :=
  { name := "gemini",
    behavior := fun _ => Except.ok
      { providerId := "gemini", payload := "b", tokensUsed := 1, latencyMs := 1 } }

/-- A sample two-adapter registry with fresh health, used by witnesses. -/
def sampleRegistry : Registry :=
  { order := [claudeAdapter, geminiAdapter], health := [] }

/-- Witness for C7: a two-adapter registry with a hint naming the second
adapter; the hinted adapter heads the trail and the stored order is
untouched. -/
theorem provider_hint_scoped_to_call_witness :
    (Registry.execute {} 0 sampleRegistry (some "gemini")).2.order.map Adapter.name
        = ["claude", "gemini"]
    ∧ ∃ o n s,
      ((Registry.execute {} 0 sampleRegistry (some "gemini")).1).trailOf
        = { provider := "gemini", outcome := o, attempts := n } :: s := by
  constructor
  · rw [provider_hint_scoped_to_call.1 {} 0 sampleRegistry (some "gemini")]
    rfl
  · exact provider_hint_scoped_to_call.2.2 {} 0 sampleRegistry "gemini"
      ⟨geminiAdapter, by simp [sampleRegistry], rfl⟩

theorem templateFor_isSome (ct : ContentType) (p : Platform) :
    ∃ t, templateFor ct p = some t := by
  unfold templateFor
  rcases hf : registeredTemplates.find? (fun t => t.1 == ct && t.2.1 == p) with _ | t
  · exact ⟨contentTemplate ct, by rw [hf]⟩
  · exact ⟨t.2.2, by rw [hf]⟩

theorem build_ok (req : GenerationRequest) (ctx : BrandContext) :
    ∃ s, build req ctx = Except.ok s := by
  obtain ⟨t, ht⟩ := templateFor_isSome req.contentType req.platform
  refine ⟨?_, ?_⟩
  · exact
      { systemInstructions :=
          t ++ platformOverlay req.platform
            ++ " Brand voice: " ++ ctx.voice ++ "."
            ++ " Brand values: " ++ String.intercalate ", " ctx.brandValues ++ "."
            ++ " Messaging pillars: " ++ String.intercalate ", " ctx.messagingPillars ++ ".",
        userInstructions :=
          "=== CALLER BRIEF (verbatim, not brand instructions) === "
            ++ req.brief ++ renderPairs req.additionalContext,
        outputFormatHint := some "return JSON with fields headline, body, hashtags" }
  · unfold build
    rw [ht]

/-- C4: when every adapter in the effective order is circuit-open or its
backend never succeeds, generate_content fails with
AllProvidersUnavailableError whose trail has one entry per adapter (in
order), and the persisted list is unchanged. -/
theorem all_providers_unavailable_nothing_persisted :
    ∀ (rcfg : RateLimitConfig) (fcfg : FailoverConfig) (now : Nat) (ctx : BrandContext)
      (st : PipelineState) (req : GenerationRequest) (tbl' : RateTable),
      check_and_increment rcfg now st.rateTable req.callerId = (RateDecision.allowed, tbl') →
      ((reorderWithHint req.preferredProvider st.registry.order).map Adapter.name).Nodup →
      (∀ a ∈ reorderWithHint req.preferredProvider st.registry.order,
        circuitOpenAt fcfg (lookupHealth st.registry.health a.name) now = true
          ∨ neverSucceeds a) →
      ∃ trail,
        (generate_content rcfg fcfg now ctx st req).1
            = Except.error (GenError.allProvidersUnavailable trail)
        ∧ trail.map TrailEntry.provider
            = (reorderWithHint req.preferredProvider st.registry.order).map Adapter.name
        ∧ (generate_content rcfg fcfg now ctx st req).2.persisted = st.persisted := by
  intro rcfg fcfg now ctx st req tbl' hrc hnd hall
  obtain ⟨ps, hps⟩ := build_ok req ctx
  obtain ⟨s, hm', heq, hmap⟩ := executeGo_all_fail fcfg now
    (reorderWithHint req.preferredProvider st.registry.order) st.registry.health [] hnd hall
  have hexec : Registry.execute fcfg now st.registry req.preferredProvider
      = (ExecuteResult.allProvidersUnavailable s,
         { order := st.registry.order, health := hm' }) := by
    unfold Registry.execute
    rw [heq]
    simp
  refine ⟨s, ?_, hmap, ?_⟩
  · simp [generate_content, hrc, hps, hexec]
  · simp [generate_content, hrc, hps, hexec]

/-- An adapter whose backend always fails transiently, used by
witnesses. -/
def failingAdapterA : Adapter :=
  { name := "badA", behavior := fun _ => Except.error ProviderError.transientError }

/-- A second always-failing adapter, used by witnesses. -/
def failingAdapterB : Adapter :=
  { name := "badB", behavior := fun _ => Except.error ProviderError.rateLimitedError }

/-- A sample brand context, used by witnesses. -/
def sampleContext : BrandContext :=
  { name := "TechCorp",
    voice := "Professional, friendly",
    colorPalette := [("primary", "#007bff")],
    typography := [("primary_font", "Helvetica Neue")],
    messagingPillars := ["Innovation leadership"],
    targetAudience := "Business decision makers",
    brandValues := ["Reliability"],
    referenceSummaries := [] }

/-- A sample generation request, used by witnesses. -/
def sampleRequest : GenerationRequest :=
  { callerId := "u1",
    brandId := 1,
    contentType := ContentType.social_post,
    platform := Platform.instagram,
    brief := "Announce new dashboard",
    additionalContext := [],
    preferredProvider := none }

/-- A sample pipeline state with two always-failing adapters, used by the
C4 witness. -/
def exhaustedState : PipelineState :=
  { rateTable := [],
    registry := { order := [failingAdapterA, failingAdapterB], health := [] },
    persisted := [] }

/-- Witness for C4: two adapters, both exhausted — a two-entry trail and
nothing persisted. -/
theorem all_providers_unavailable_nothing_persisted_witness :
    ∃ trail,
      (generate_content {} {} 0 sampleContext exhaustedState sampleRequest).1
          = Except.error (GenError.allProvidersUnavailable trail)
      ∧ trail.map TrailEntry.provider
          = (reorderWithHint sampleRequest.preferredProvider
              exhaustedState.registry.order).map Adapter.name
      ∧ (generate_content {} {} 0 sampleContext exhaustedState sampleRequest).2.persisted
          = exhaustedState.persisted :=
  all_providers_unavailable_nothing_persisted {} {} 0 sampleContext exhaustedState
    sampleRequest [("u1", { minuteStart := 0, minuteCount := 1, hourStart := 0, hourCount := 1 })]
    (by rfl)
    (by simp [exhaustedState, reorderWithHint, sampleRequest, failingAdapterA, failingAdapterB])
    (by
      intro a ha
      simp [exhaustedState, reorderWithHint, sampleRequest] at ha
      rcases ha with rfl | rfl
      · exact Or.inr (fun k => ⟨ProviderError.transientError, rfl⟩)
      · exact Or.inr (fun k => ⟨ProviderError.rateLimitedError, rfl⟩))

theorem pruneCounters_minute (now : Nat) (c0 : CallerCounters) :
    (pruneCounters now c0).minuteStart
        = (if c0.minuteStart + 60 ≤ now then now else c0.minuteStart)
    ∧ (pruneCounters now c0).minuteCount
        = (if c0.minuteStart + 60 ≤ now then 0 else c0.minuteCount) := by
  unfold pruneCounters
  by_cases h1 : c0.minuteStart + 60 ≤ now <;>
    by_cases h2 : c0.hourStart + 3600 ≤ now <;>
    simp [h1, h2]

/-- C3: when the pruned minute-window count has reached the per-minute
cap, check_and_increment denies with retry-after equal to the seconds
until the minute window resets — strictly positive — and stores the
pruned counters without incrementing the minute count; and a caller
issuing 61 requests within one minute under a 60/minute cap has the 61st
denied with retry-after 60 ≤ 60. -/
theorem rate_limiter_denies_over_cap :
    (∀ (cfg : RateLimitConfig) (now : Nat) (tbl : RateTable) (caller : String),
      0 < cfg.perMinute →
      cfg.perMinute ≤ (pruneCounters now (lookupCounters now tbl caller)).minuteCount →
      check_and_increment cfg now tbl caller
          = (RateDecision.denied
              ((pruneCounters now (lookupCounters now tbl caller)).minuteStart + 60 - now),
             updateCounters tbl caller (pruneCounters now (lookupCounters now tbl caller)))
        ∧ 0 < (pruneCounters now (lookupCounters now tbl caller)).minuteStart + 60 - now
        ∧ (pruneCounters now (lookupCounters now tbl caller)).minuteCount
            = (lookupCounters now tbl caller).minuteCount)
  ∧ (callRepeatedly { perMinute := 60, perHour := 1000 } 0 "tab" 61 []).1
        = RateDecision.denied 60
  ∧ (60 : Nat) ≤ 60 := by
  refine ⟨?_, ?_, le_rfl⟩
  · intro cfg now tbl caller hpos hcap
    obtain ⟨hms, hmc⟩ := pruneCounters_minute now (lookupCounters now tbl caller)
    have hexp : ¬ (lookupCounters now tbl caller).minuteStart + 60 ≤ now := by
      intro hle
      rw [hmc, if_pos hle] at hcap
      omega
    refine ⟨?_, ?_, ?_⟩
    · unfold check_and_increment
      rw [if_neg (by omega)]
    · rw [hms, if_neg hexp]
      omega
    · rw [hmc, if_neg hexp]
  · decide

/-- Witness for C3: a caller already at the 60/minute cap thirty seconds
into the window is denied with retry-after 30 and an unchanged minute
count. -/
theorem rate_limiter_denies_over_cap_witness :
    check_and_increment { perMinute := 60, perHour := 1000 } 30
        [("u", { minuteStart := 0, minuteCount := 60, hourStart := 0, hourCount := 60 })] "u"
        = (RateDecision.denied 30,
           updateCounters
             [("u", { minuteStart := 0, minuteCount := 60, hourStart := 0, hourCount := 60 })]
             "u" { minuteStart := 0, minuteCount := 60, hourStart := 0, hourCount := 60 })
      ∧ (0 : Nat) < 30
      ∧ (60 : Nat) = 60 := by
  have h := (rate_limiter_denies_over_cap.1 { perMinute := 60, perHour := 1000 } 30
    [("u", { minuteStart := 0, minuteCount := 60, hourStart := 0, hourCount := 60 })] "u"
    (by decide) (by decide))
  exact ⟨h.1, by decide, rfl⟩

/-- C6: prompt building is deterministic — two build calls with equal
(request, context) pairs produce equal PromptSpec values. -/
theorem prompt_build_deterministic :
    ∀ (r1 r2 : GenerationRequest) (c1 c2 : BrandContext),
      r1 = r2 → c1 = c2 → build r1 c1 = build r2 c2 := by
  intro r1 r2 c1 c2 hr hc
  rw [hr, hc]

/-- Witness for C6 at a concrete request and context. -/
theorem prompt_build_deterministic_witness :
    build sampleRequest sampleContext = build sampleRequest sampleContext :=
  prompt_build_deterministic sampleRequest sampleRequest sampleContext sampleContext rfl rfl

/-- C8: build fails with UnsupportedCombinationError exactly when no
template pairing exists for the content type and platform, and because a
generic fallback template exists for every platform, build succeeds on
every enum-valid input and the error never occurs. -/
theorem build_total_on_enums :
    ∀ (req : GenerationRequest) (ctx : BrandContext),
      (build req ctx = Except.error PromptError.unsupportedCombination
        ↔ templateFor req.contentType req.platform = none)
      ∧ ∃ s, build req ctx = Except.ok s := by
  intro req ctx
  obtain ⟨t, ht⟩ := templateFor_isSome req.contentType req.platform
  obtain ⟨s, hs⟩ := build_ok req ctx
  refine ⟨⟨?_, ?_⟩, s, hs⟩
  · intro hb
    rw [hs] at hb
    cases hb
  · intro hn
    rw [ht] at hn
    cases hn

/-- C9 counterexample: a rejected login whose response detail is present
but empty yields the fallback message, not the (empty) detail — the
JavaScript or-else operator treats the empty string as absent. -/
theorem login_detail_present_counterexample :
    (login (Except.error { detail := some "" })
        { localStorageToken := none, authHeader := none,
          auth := { user := none, token := none, loading := false } }).1.error
        = some "Login failed"
      ∧ some "Login failed" ≠ some "" := by
  exact ⟨rfl, by decide⟩

/-- C9 (amended): on a rejected login, login returns success false with
the server's detail when present and non-empty and the string Login
failed when the detail is absent or empty, and the browser state —
localStorage token, Authorization header, auth state — is unchanged. -/
theorem login_failure_no_state_change :
    ∀ (d : Option String) (st : BrowserAuth),
      (login (Except.error { detail := d }) st).1.success = false
      ∧ (login (Except.error { detail := d }) st).1.error
          = some (match d with
                  | some s => if s = "" then "Login failed" else s
                  | none => "Login failed")
      ∧ (login (Except.error { detail := d }) st).2 = st := by
  intro d st
  refine ⟨rfl, ?_, rfl⟩
  cases d with
  | none => rfl
  | some s => rfl

/-- C10: with a null user the App component renders only the login and
register routes, redirecting every other path to /login, and never
renders an authenticated page (Dashboard, Brands, ContentGeneration,
Campaigns). -/
theorem unauthenticated_routing :
    (∀ path : String,
      appRoute none path
        = if path = "/login" then RenderedPage.loginPage
          else if path = "/register" then RenderedPage.registerPage
          else RenderedPage.redirectToLogin)
  ∧ (∀ path : String, isAuthenticatedPage (appRoute none path) = false) := by
  constructor
  · intro path
    rfl
  · intro path
    unfold appRoute
    by_cases h1 : path = "/login" <;> by_cases h2 : path = "/register" <;>
      simp [h1, h2, isAuthenticatedPage]

/-- Witness for C8: build succeeds at a concrete enum-valid request. -/
theorem build_total_on_enums_witness :
    ∃ s, build sampleRequest sampleContext = Except.ok s :=
  (build_total_on_enums sampleRequest sampleContext).2
